import Mathlib

/-!
Verification of the sandboxed Python execution engine
(`apps/sandbox/python/`: `sandbox_env.py`, `import_hook.py`,
`output_handler.py`, `runtime.py`).

The Python sources are shallowly embedded: the capability-policy tables and
lookup functions are translated directly; the runtime's `execute_code` is
modelled as a pure function over an explicit description of what the
executed code unit did (its final globals, captured console text, and the
fault — if any — it raised), since the behaviour of arbitrary Python code
cannot itself be embedded.
-/

namespace Sandbox

/-! ## Capability policy (`sandbox_env.py`, `SandboxEnvironment`)

`allowed_modules` is the dict built in `SandboxEnvironment.__init__`
(lines 19-55): module name to allowed-attribute list, `"*"` denoting the
wildcard.  `blocked_modules` is the deny set (lines 58-68). -/

def allowed_modules : List (String × List String) :=
  [("math", ["*"]),
   ("random", ["random", "randint", "uniform", "choice", "shuffle", "seed"]),
   ("datetime", ["*"]),
   ("time", ["time", "sleep"]),
   ("json", ["loads", "dumps"]),
   ("re", ["*"]),
   ("string", ["*"]),
   ("collections", ["*"]),
   ("itertools", ["*"]),
   ("functools", ["*"]),
   ("operator", ["*"]),
   ("copy", ["copy", "deepcopy"]),
   ("decimal", ["*"]),
   ("fractions", ["*"]),
   ("statistics", ["*"]),
   ("numpy", ["*"]),
   ("pandas", ["*"]),
   ("matplotlib", ["*"]),
   ("matplotlib.pyplot", ["*"]),
   ("seaborn", ["*"]),
   ("plotly", ["*"]),
   ("scipy", ["*"]),
   ("sklearn", ["*"]),
   ("PIL", ["*"]),
   ("base64", ["b64encode", "b64decode"]),
   ("hashlib", ["md5", "sha1", "sha256"]),
   ("uuid", ["*"]),
   ("urllib.parse", ["*"]),
   ("textwrap", ["*"]),
   ("pprint", ["pprint", "pformat"])]

def blocked_modules : List String :=
  ["os", "sys", "subprocess", "shutil", "glob", "pathlib",
   "socket", "urllib.request", "urllib.error", "http",
   "smtplib", "poplib", "imaplib", "ftplib",
   "threading", "multiprocessing", "_thread",
   "ctypes", "ctypes.util", "ctypes.wintypes",
   "importlib", "pkgutil", "modulefinder",
   "ast", "code", "codeop", "compile", "dis",
   "gc", "inspect", "types", "weakref",
   "pickle", "marshal", "shelve", "dbm"]

/-- The key set of `allowed_modules` (Python `module_name in self.allowed_modules`
tests dict-key membership). -/
def allowedKeys : List String := allowed_modules.map Prod.fst

/-- Helper for `splitDot`: scan the character list, cutting at every dot;
`acc` holds the characters of the current piece in reverse. -/
def splitDotAux : List Char → List Char → List String
  | [], acc => [String.mk acc.reverse]
  | c :: cs, acc =>
    if c = '.' then String.mk acc.reverse :: splitDotAux cs []
    else splitDotAux cs (c :: acc)

/-- `module_name.split('.')`: split a string at every dot.  Like the Python
original it returns `[""]` on the empty string and keeps empty pieces. -/
def splitDot (s : String) : List String := splitDotAux s.data []

/-- `'.'.join(l)`: join a list of strings with a dot separator. -/
def joinDot : List String → String
  | [] => ""
  | [p] => p
  | p :: ps => p ++ "." ++ joinDot ps

/-- The successive dotted prefixes `'.'.join(parts[:i+1])` for
`i in range(len(parts))`, in the order the loop of `is_module_allowed`
(lines 148-154) visits them: least specific (shortest) first. -/
def prefixChain (parts : List String) : List String :=
  (List.range parts.length).map (fun i => joinDot (parts.take (i + 1)))

/-- The body of the prefix loop of `is_module_allowed` (lines 149-154):
visit the given candidate names in order; the first one found in the deny
table decides deny, the first one found in the allow table decides allow;
falling off the end gives the default deny of line 157. -/
def walkChain : List String → Bool
  | [] => false
  | p :: rest =>
    if blocked_modules.contains p then false
    else if allowedKeys.contains p then true
    else walkChain rest

/-- `SandboxEnvironment.is_module_allowed` (lines 137-157): exact deny,
then exact allow, then the prefix walk (least specific first), then
default deny. -/
def is_module_allowed (module_name : String) : Bool :=
  if blocked_modules.contains module_name then false
  else if allowedKeys.contains module_name then true
  else walkChain (prefixChain (splitDot module_name))

/-- The resolution order as the specification words it (section 4.1):
exact deny, exact allow, then a walk of the dotted prefixes from most
specific (longest) to least specific (shortest), first match deciding,
unmatched default-deny.  Written from the spec, to be compared with
`is_module_allowed`. -/
def is_module_allowed_spec (module_name : String) : Bool :=
  if blocked_modules.contains module_name then false
  else if allowedKeys.contains module_name then true
  else walkChain (prefixChain (splitDot module_name)).reverse

/-- Dict lookup `self.allowed_modules[module_name]` guarded by key
membership. -/
def lookupAllowed (module_name : String) : Option (List String) :=
  (allowed_modules.find? (fun e => e.fst == module_name)).map Prod.snd

/-- `SandboxEnvironment.get_allowed_attributes` (lines 159-164): `none`
means unrestricted (either the wildcard entry or no entry at all). -/
def get_allowed_attributes (module_name : String) : Option (List String) :=
  match lookupAllowed module_name with
  | some attrs => if attrs.contains "*" then none else some attrs
  | none => none

/-- `SandboxEnvironment.filter_module_attributes` (lines 166-180), with the
module represented by its attribute-name list: an unrestricted lookup
returns the module unchanged, a restricted one keeps exactly the allowed
attributes the module has. -/
def filter_module_attributes (attrs : List String) (module_name : String) : List String :=
  match get_allowed_attributes module_name with
  | none => attrs
  | some allowed => allowed.filter (fun a => attrs.contains a)

/-! ## Structure of the policy tables

The shipped tables contain no pair of an allow key and a deny entry where
one is the other or a dotted ancestor of the other.  Consequently the
prefix chain of any single module name can never meet both tables, which
makes the visiting order of the prefix loop irrelevant. -/

/-- `a` is a dotted ancestor of `b`: `b` begins with `a` followed by a dot. -/
def isDotAncestor (a b : String) : Bool :=
  List.isPrefixOf (a ++ ".").data b.data

/-- No allow-table key coincides with, dominates, or is dominated by a
deny-table entry. -/
def tablesConflictFree : Bool :=
  allowedKeys.all fun a => blocked_modules.all fun b =>
    !(a == b) && !(isDotAncestor a b) && !(isDotAncestor b a)

theorem tables_conflict_free : tablesConflictFree = true := by decide

theorem joinDot_append (xs ys : List String) (hx : xs ≠ []) (hy : ys ≠ []) :
    joinDot (xs ++ ys) = joinDot xs ++ "." ++ joinDot ys := by
  induction xs with
  | nil => exact absurd rfl hx
  | cons x xs ih =>
    cases xs with
    | nil =>
      cases ys with
      | nil => exact absurd rfl hy
      | cons y ys => simp [joinDot]
    | cons x2 xs2 =>
      have ih2 := ih (by simp)
      simp only [List.cons_append] at ih2 ⊢
      calc joinDot (x :: x2 :: (xs2 ++ ys))
          = x ++ "." ++ joinDot (x2 :: (xs2 ++ ys)) := rfl
        _ = x ++ "." ++ (joinDot (x2 :: xs2) ++ "." ++ joinDot ys) := by rw [ih2]
        _ = joinDot (x :: x2 :: xs2) ++ "." ++ joinDot ys := by
            simp [String.append_assoc, joinDot]

/-- A shorter dotted prefix of the same component list is a dotted ancestor
of a longer one. -/
theorem joinDot_take_ancestor (l : List String) (i j : Nat)
    (hi : 0 < i) (hij : i < j) (hj : j ≤ l.length) :
    isDotAncestor (joinDot (l.take i)) (joinDot (l.take j)) = true := by
  have hsplit : l.take j = l.take i ++ (l.take j).drop i := by
    conv_lhs => rw [← List.take_append_drop i (l.take j)]
    rw [List.take_take, Nat.min_eq_left (Nat.le_of_lt hij)]
  have hx : l.take i ≠ [] := by
    apply List.ne_nil_of_length_pos
    rw [List.length_take]
    omega
  have hy : (l.take j).drop i ≠ [] := by
    apply List.ne_nil_of_length_pos
    rw [List.length_drop, List.length_take]
    omega
  rw [hsplit, joinDot_append _ _ hx hy]
  unfold isDotAncestor
  rw [String.data_append]
  simp [ List.isPrefixOf_iff_prefix]

/-- Two members of one name's prefix chain can never sit in the allow table
and the deny table respectively. -/
theorem chain_mem_conflict {l : List String} {p q : String}
    (hp : p ∈ prefixChain l) (hq : q ∈ prefixChain l)
    (hpa : allowedKeys.contains p = true)
    (hqb : blocked_modules.contains q = true) : False := by
  rcases List.mem_map.mp hp with ⟨i, hi, rfl⟩
  rcases List.mem_map.mp hq with ⟨j, hj, rfl⟩
  rw [List.mem_range] at hi hj
  have hpa' : joinDot (l.take (i + 1)) ∈ allowedKeys := List.elem_iff.mp hpa
  have hqb' : joinDot (l.take (j + 1)) ∈ blocked_modules := List.elem_iff.mp hqb
  have hfact := List.all_eq_true.mp (List.all_eq_true.mp tables_conflict_free _ hpa') _ hqb'
  simp only [Bool.and_eq_true, Bool.not_eq_true'] at hfact
  obtain ⟨⟨hne, hab⟩, hba⟩ := hfact
  rcases Nat.lt_trichotomy i j with h | h | h
  · rw [joinDot_take_ancestor l (i + 1) (j + 1) (by omega) (by omega) (by omega)] at hab
    exact Bool.noConfusion hab
  · subst h
    rw [BEq.refl] at hne
    exact Bool.noConfusion hne
  · rw [joinDot_take_ancestor l (j + 1) (i + 1) (by omega) (by omega) (by omega)] at hba
    exact Bool.noConfusion hba

/-- When no candidate is in the deny table, the walk reduces to an
order-insensitive search of the allow table. -/
theorem walkChain_of_no_blocked {ps : List String}
    (h : ∀ p ∈ ps, blocked_modules.contains p = false) :
    walkChain ps = ps.any fun p => allowedKeys.contains p := by
  induction ps with
  | nil => rfl
  | cons p rest ih =>
    rw [walkChain, h p (List.mem_cons_self p rest), List.any_cons,
      ih fun q hq => h q (List.mem_cons_of_mem p hq)]
    cases ha : allowedKeys.contains p
    · simp
    · simp

/-- When no candidate is in the allow table, the walk always denies. -/
theorem walkChain_of_no_allowed {ps : List String}
    (h : ∀ p ∈ ps, allowedKeys.contains p = false) :
    walkChain ps = false := by
  induction ps with
  | nil => rfl
  | cons p rest ih =>
    rw [walkChain, h p (List.mem_cons_self p rest),
      ih fun q hq => h q (List.mem_cons_of_mem p hq)]
    cases hb : blocked_modules.contains p
    · simp
    · simp

/-- On any single name's prefix chain the walk is insensitive to the
visiting order. -/
theorem walkChain_reverse_of_chain (l : List String) :
    walkChain (prefixChain l) = walkChain (prefixChain l).reverse := by
  by_cases hb : ∃ p ∈ prefixChain l, blocked_modules.contains p = true
  · rcases hb with ⟨p, hp, hpb⟩
    have hno : ∀ q ∈ prefixChain l, allowedKeys.contains q = false := by
      intro q hq
      cases hqa : allowedKeys.contains q
      · rfl
      · exact (chain_mem_conflict hq hp hqa hpb).elim
    rw [walkChain_of_no_allowed hno,
      walkChain_of_no_allowed fun q hq => hno q (List.mem_reverse.mp hq)]
  · have hb' : ∀ p ∈ prefixChain l, blocked_modules.contains p = false := by
      intro p hp
      cases h : blocked_modules.contains p
      · rfl
      · exact absurd ⟨p, hp, h⟩ hb
    rw [walkChain_of_no_blocked hb',
      walkChain_of_no_blocked fun p hp => hb' p (List.mem_reverse.mp hp)]
    exact List.any_reverse.symm

/-- C2: for every dotted module name with no exact entry in either table,
`is_module_allowed` resolves it exactly as the specified
most-specific-to-least-specific prefix walk does: on the shipped tables the
first prefix found in the deny or allow table decides the outcome
irrespective of direction, so the least-specific-first loop of the code
computes the specified result. -/
theorem C2_prefix_resolution (module_name : String)
    (hb : blocked_modules.contains module_name = false)
    (ha : allowedKeys.contains module_name = false) :
    is_module_allowed module_name = is_module_allowed_spec module_name := by
  unfold is_module_allowed is_module_allowed_spec
  simp only [hb, ha, Bool.false_eq_true, if_false]
  exact walkChain_reverse_of_chain (splitDot module_name)

theorem C2_witness :
    blocked_modules.contains "collections.abc" = false
    ∧ allowedKeys.contains "collections.abc" = false
    ∧ is_module_allowed "collections.abc" = is_module_allowed_spec "collections.abc" :=
  ⟨by decide, by decide, C2_prefix_resolution "collections.abc" (by decide) (by decide)⟩

/-- C3: every module name listed in the deny table is refused by
`is_module_allowed`, regardless of any allow entry for a shorter prefix:
the exact deny check is the very first test and short-circuits everything
else. -/
theorem C3_deny_precedence (module_name : String)
    (h : blocked_modules.contains module_name = true) :
    is_module_allowed module_name = false := by
  unfold is_module_allowed
  rw [h]
  simp

theorem C3_witness :
    blocked_modules.contains "os" = true ∧ is_module_allowed "os" = false :=
  ⟨by decide, C3_deny_precedence "os" (by decide)⟩

/-- C9: a module name with no allow-table entry — neither exact nor via any
dotted prefix — is denied by default. -/
theorem C9_default_deny (module_name : String)
    (hexact : allowedKeys.contains module_name = false)
    (hpre : ∀ p ∈ prefixChain (splitDot module_name), allowedKeys.contains p = false) :
    is_module_allowed module_name = false := by
  unfold is_module_allowed
  cases hb : blocked_modules.contains module_name
  · rw [hexact, walkChain_of_no_allowed hpre]
    simp
  · simp

theorem C9_witness :
    allowedKeys.contains "requests" = false
    ∧ (∀ p ∈ prefixChain (splitDot "requests"), allowedKeys.contains p = false)
    ∧ is_module_allowed "requests" = false :=
  ⟨by decide, by decide, C9_default_deny "requests" (by decide) (by decide)⟩

/-- C4 counterexample: `random.gauss` is reachable only through its allowed
prefix `random`, whose attribute set is the restricted list — yet
`get_allowed_attributes` yields the unrestricted wildcard (`none`) for it,
and `filter_module_attributes` passes every attribute through unfiltered,
contradicting the claim that the prefix entry's restriction applies. -/
theorem C4_counterexample :
    is_module_allowed "random.gauss" = true
    ∧ allowedKeys.contains "random.gauss" = false
    ∧ get_allowed_attributes "random" =
        some ["random", "randint", "uniform", "choice", "shuffle", "seed"]
    ∧ get_allowed_attributes "random.gauss" = none
    ∧ filter_module_attributes ["gauss", "getstate"] "random.gauss" = ["gauss", "getstate"] :=
  ⟨by decide, by decide, by decide, by decide, by decide⟩

/-- C4 amended: a module name without an exact allow-table entry — in
particular one allowed only via a prefix match — inherits no attribute
restriction: `get_allowed_attributes` returns the unrestricted wildcard and
`filter_module_attributes` returns the module's attributes unchanged. -/
theorem C4_no_inherited_restriction (module_name : String) (attrs : List String)
    (h : allowedKeys.contains module_name = false) :
    get_allowed_attributes module_name = none
    ∧ filter_module_attributes attrs module_name = attrs := by
  have hmem : module_name ∉ allowedKeys := by
    intro hmem
    have h2 : allowedKeys.contains module_name = true := List.elem_iff.mpr hmem
    rw [h] at h2
    exact Bool.noConfusion h2
  have hfind : allowed_modules.find? (fun e => e.fst == module_name) = none := by
    rw [List.find?_eq_none]
    intro e he hbeq
    exact hmem (List.mem_map.mpr ⟨e, he, (beq_iff_eq.mp hbeq)⟩)
  have hget : get_allowed_attributes module_name = none := by
    unfold get_allowed_attributes lookupAllowed
    rw [hfind]
    rfl
  refine ⟨hget, ?_⟩
  unfold filter_module_attributes
  rw [hget]

theorem C4_witness :
    allowedKeys.contains "random.gauss" = false
    ∧ get_allowed_attributes "random.gauss" = none
    ∧ filter_module_attributes ["gauss", "getstate"] "random.gauss" = ["gauss", "getstate"] :=
  ⟨by decide,
    (C4_no_inherited_restriction "random.gauss" ["gauss", "getstate"] (by decide)).1,
    (C4_no_inherited_restriction "random.gauss" ["gauss", "getstate"] (by decide)).2⟩

/-! ## Import hook registration (`import_hook.py`, lines 161-177)

`sys.meta_path` is modelled as a list of hook identities (Python compares
`ImportHook` instances by object identity, so a `Nat` identifier stands for
one hook object).  `patch_import_system` creates a fresh hook and inserts
it at position 0 unless it is already in the chain; `unpatch_import_system`
removes the first (and, by the registration guard, only) occurrence. -/

/-- The insertion step of `patch_import_system` (lines 167-169): insert the
hook at the front of `sys.meta_path` unless it is already registered. -/
def patch_import_system (hook : Nat) (meta_path : List Nat) : List Nat :=
  if meta_path.contains hook then meta_path else hook :: meta_path

/-- `unpatch_import_system` (lines 174-177): `list.remove` deletes the first
occurrence, guarded by a membership test. -/
def unpatch_import_system (hook : Nat) (meta_path : List Nat) : List Nat :=
  if meta_path.contains hook then meta_path.erase hook else meta_path

/-- C8: registering the same mediator twice is rejected — a second
`patch_import_system` of a registered hook is a no-op, so a chain that a
fresh hook is registered into holds exactly one occurrence of it — and
`unpatch_import_system` removes the mediator exactly once, restoring the
original chain, after which it is no longer present. -/
theorem C8_registration (hook : Nat) (meta_path : List Nat)
    (hfresh : hook ∉ meta_path) :
    patch_import_system hook (patch_import_system hook meta_path)
        = patch_import_system hook meta_path
    ∧ (patch_import_system hook meta_path).count hook = 1
    ∧ unpatch_import_system hook (patch_import_system hook meta_path) = meta_path
    ∧ hook ∉ unpatch_import_system hook (patch_import_system hook meta_path) := by
  have hc : meta_path.contains hook = false := by
    cases hc : meta_path.contains hook
    · rfl
    · exact absurd (List.elem_iff.mp hc) hfresh
  have hpatch : patch_import_system hook meta_path = hook :: meta_path := by
    unfold patch_import_system
    rw [hc]
    simp
  have hc2 : (hook :: meta_path).contains hook = true :=
    List.elem_iff.mpr (List.mem_cons_self hook meta_path)
  refine ⟨?_, ?_, ?_, ?_⟩
  · rw [hpatch]
    unfold patch_import_system
    rw [hc2]
    simp
  · rw [hpatch, List.count_cons_self, List.count_eq_zero_of_not_mem hfresh]
  · rw [hpatch]
    unfold unpatch_import_system
    rw [hc2]
    simp
  · rw [hpatch]
    unfold unpatch_import_system
    rw [hc2]
    simpa using hfresh

theorem C8_witness :
    (7 : Nat) ∉ [1, 2, 3]
    ∧ (patch_import_system 7 (patch_import_system 7 [1, 2, 3])
        = patch_import_system 7 [1, 2, 3]
      ∧ (patch_import_system 7 [1, 2, 3]).count 7 = 1
      ∧ unpatch_import_system 7 (patch_import_system 7 [1, 2, 3]) = [1, 2, 3]
      ∧ 7 ∉ unpatch_import_system 7 (patch_import_system 7 [1, 2, 3])) :=
  ⟨by decide, C8_registration 7 [1, 2, 3] (by decide)⟩

/-! ## Values and the output handler (`output_handler.py`)

A Python runtime value is abstracted by the observations the embedded code
makes of it: its type name, its `str()` rendering, whether
`json.dumps(value, default=str)` succeeds, whether it is callable, and
whether it has a `__module__` attribute.  `_serialize_value` dispatches on
runtime types (numpy arrays, pandas frames, matplotlib figures) that have
no counterpart here, so it is abstracted as a function parameter that
either produces a serialized payload or raises. -/

structure PyValue where
  tyName : String
  srepr : String
  jsonable : Bool
  isCallable : Bool
  hasModuleAttr : Bool
deriving DecidableEq

/-- One entry of the dict `serialize_variables` returns: either the payload
`_serialize_value` produced, or the error descriptor built in its `except`
arm. -/
inductive SerEntry where
  | val (payload : String)
  | failed (tyName errText rp : String)
deriving DecidableEq

/-- `str(value)[:200] + '...' if len(str(value)) > 200 else str(value)`
(line 161 of `output_handler.py`). -/
def truncRepr (s : String) : String :=
  if s.length > 200 then s.take 200 ++ "..." else s

/-- `OutputHandler.serialize_variables` (lines 149-164): serialize each
variable; when `_serialize_value` (abstracted as `serVal`) raises, store an
error descriptor carrying the value's type name, the failure text, and a
truncated `repr` under the same name. -/
def serialize_variables (serVal : PyValue → Except String String)
    (vs : List (String × PyValue)) : List (String × SerEntry) :=
  vs.map fun kv =>
    (kv.fst,
      match serVal kv.snd with
      | Except.ok payload => SerEntry.val payload
      | Except.error e =>
          SerEntry.failed kv.snd.tyName ("Serialization failed: " ++ e)
            (truncRepr kv.snd.srepr))

/-- C10: `serialize_variables` preserves the key set of its input — every
variable appears in the output under its own name — and a value whose
serialization fails is represented by the error descriptor (type name,
error text, truncated repr) rather than being dropped. -/
theorem C10_keys_preserved (serVal : PyValue → Except String String)
    (vs : List (String × PyValue)) :
    (serialize_variables serVal vs).map Prod.fst = vs.map Prod.fst
    ∧ ∀ name v e, (name, v) ∈ vs → serVal v = Except.error e →
        (name, SerEntry.failed v.tyName ("Serialization failed: " ++ e)
          (truncRepr v.srepr)) ∈ serialize_variables serVal vs := by
  constructor
  · unfold serialize_variables
    rw [List.map_map]
    rfl
  · intro name v e hmem herr
    unfold serialize_variables
    refine List.mem_map.mpr ⟨(name, v), hmem, ?_⟩
    rw [herr]

theorem C10_witness :
    ((serialize_variables (fun _ => Except.error "boom")
        [("a", ⟨"set", "one-two", false, false, false⟩)]).map Prod.fst
      = [("a", (⟨"set", "one-two", false, false, false⟩ : PyValue))].map Prod.fst)
    ∧ ("a", SerEntry.failed "set" ("Serialization failed: " ++ "boom")
          (truncRepr "one-two"))
        ∈ serialize_variables (fun _ => Except.error "boom")
            [("a", ⟨"set", "one-two", false, false, false⟩)] :=
  ⟨(C10_keys_preserved (fun _ => Except.error "boom")
      [("a", ⟨"set", "one-two", false, false, false⟩)]).1,
    (C10_keys_preserved (fun _ => Except.error "boom")
      [("a", ⟨"set", "one-two", false, false, false⟩)]).2
      "a" ⟨"set", "one-two", false, false, false⟩ "boom" (by decide) rfl⟩

/-! ## The runtime (`runtime.py`, `SandboxRuntime.execute_code`)

`execute_code` is modelled as a pure function of

* the abstracted `_serialize_value`,
* a `Behavior` describing what `exec(code, execution_globals)` did — the
  globals it left behind, the console text it produced, and the fault (if
  any) it raised — together with where an asynchronous interrupt landed,
  the elapsed time, the memory reading, and the captured plots, and
* the current session bindings and the caller's input bindings;

it returns the result (or the escaping `BaseException`) together with the
session bindings after the call.  Python's exception hierarchy matters
here: `TimeoutError` (raised by the alarm handler of line 96) and
`MemoryError` both derive from `Exception`, so when they interrupt the
code unit itself they are caught by the inner `except Exception` of
line 161; the outer handlers of lines 193-219 are reached only by faults
raised between the end of the code unit and the return, which are modelled
by `PostEvent` as landing before the variable extraction.  `SystemExit`
and `KeyboardInterrupt` (raised by the termination handler of line 100)
derive only from `BaseException` and are caught by no handler in
`execute_code`. -/

structure ErrorInfo where
  type : String
  message : String
  traceback : String
deriving DecidableEq

/-- What `exec(code, execution_globals)` did. -/
inductive ExecEvent where
  | completes (finalGlobals : List (String × PyValue))
  | raisesExc (err : ErrorInfo) (globalsAtFault : List (String × PyValue))
  | raisesBase (ty msg : String)
deriving DecidableEq

/-- Whether the code unit ended in a fault deriving only from
`BaseException` (`SystemExit`, `KeyboardInterrupt`). -/
def ExecEvent.isBase : ExecEvent → Bool
  | ExecEvent.raisesBase _ _ => true
  | _ => false

/-- An asynchronous fault landing during result assembly, after the inner
`except Exception` no longer guards and before the session is updated. -/
inductive PostEvent where
  | clean
  | timeoutSig
  | memErr
  | otherExc (err : ErrorInfo)
deriving DecidableEq

def PostEvent.isClean : PostEvent → Bool
  | PostEvent.clean => true
  | _ => false

structure Behavior where
  event : ExecEvent
  stdoutText : String
  stderrText : String
  post : PostEvent
  elapsed : Nat
  memoryUsage : Nat
  plots : List String
deriving DecidableEq

/-- The result dict of `execute_code`.  All paths populate `success`,
`stdout`, `stderr`, `variables` (field `vars`), `plots` and `error`; the
`execution_time` and `memory_usage` keys exist only on the dict of lines
182-191, which `Option` records (`none` = key absent, as in the fallback
dicts of lines 193-233). -/
structure ExecResult where
  success : Bool
  stdout : String
  stderr : String
  vars : List (String × SerEntry)
  plots : List String
  error : Option ErrorInfo
  execution_time : Option Nat
  memory_usage : Option Nat
deriving DecidableEq

/-- A fault that escapes `execute_code` instead of becoming a result. -/
inductive Propagated where
  | base (ty msg : String)
deriving DecidableEq

/-- Python `dict.update`: existing keys keep their position and take the
new value, genuinely new keys are appended in encounter order. -/
def dictUpdate (d u : List (String × PyValue)) : List (String × PyValue) :=
  (d.map fun kv =>
    match u.find? (fun e => e.fst == kv.fst) with
    | some e => (kv.fst, e.snd)
    | none => kv)
  ++ u.filter fun e => (d.find? (fun kv => kv.fst == e.fst)).isNone

/-- A preloaded module object (`importlib.import_module` result): not
callable, no `__module__` attribute, and `json.dumps(·, default=str)`
succeeds on it by falling back to `str`. -/
def moduleValue (name : String) : PyValue :=
  ⟨"module", "<module " ++ name ++ ">", true, false, false⟩

/-- `_preload_safe_modules` (lines 105-114); all five imports succeed on a
stock interpreter. -/
def preloaded_names : List String := ["math", "random", "datetime", "json", "re"]

/-- `SandboxEnvironment.get_safe_globals` (lines 116-135): the restricted
`__builtins__` dict, the preloaded modules, and the `__name__`/`__doc__`
constants, in insertion order. -/
def get_safe_globals : List (String × PyValue) :=
  ("__builtins__", ⟨"dict", "<builtins dict>", true, false, false⟩)
    :: preloaded_names.map (fun n => (n, moduleValue n))
    ++ [("__name__", ⟨"str", "__sandbox__", true, false, false⟩),
        ("__doc__", ⟨"NoneType", "None", true, false, false⟩)]

/-- The skip set of `_extract_user_variables` (lines 240-243). -/
def skip_vars : List String :=
  ["__builtins__", "__name__", "__doc__", "__package__",
   "__loader__", "__spec__", "__annotations__", "__file__"]

/-- `name.startswith('_')`. -/
def startsWithUnderscore (name : String) : Bool :=
  List.isPrefixOf "_".data name.data

/-- `SandboxRuntime._extract_user_variables` (lines 235-259): keep entries
whose name has no leading underscore and is not in the skip set and whose
value is neither callable nor carries a `__module__` attribute; a value
`json.dumps(·, default=str)` rejects is replaced by its `str()`
rendering. -/
def _extract_user_variables (g : List (String × PyValue)) :
    List (String × PyValue) :=
  (g.filter fun kv =>
      !(startsWithUnderscore kv.fst) && !(skip_vars.contains kv.fst)
        && !kv.snd.isCallable && !kv.snd.hasModuleAttr).map
    fun kv =>
      (kv.fst,
        if kv.snd.jsonable then kv.snd
        else ⟨"str", kv.snd.srepr, true, false, false⟩)

/-- The dict built by each fallback handler of `execute_code`
(lines 193-233): failure, empty output and maps, the given error
descriptor, and no `execution_time`/`memory_usage` keys. -/
def fallbackResult (err : ErrorInfo) : ExecResult :=
  { success := false, stdout := "", stderr := "", vars := [], plots := [],
    error := some err, execution_time := none, memory_usage := none }

/-- The descriptor of the outer `except TimeoutError` handler
(lines 200-204); `self.max_cpu_time = 30`. -/
def timeoutInfo : ErrorInfo :=
  ⟨"TimeoutError", "Code execution timeout after 30 seconds", ""⟩

/-- The descriptor of the outer `except MemoryError` handler
(lines 214-218); `self.max_memory = 512 * 1024 * 1024`. -/
def memoryInfo : ErrorInfo :=
  ⟨"MemoryError", "Code execution exceeded memory limit of 536870912 bytes", ""⟩

/-- Result assembly inside the `with` block (lines 169-191) together with
the outer fallback handlers (lines 193-233).  `succ`/`err` reflect the
inner `try`/`except Exception` around `exec` (lines 156-167).  A `post`
fault lands after the captured output is read but before the variable
extraction, so those paths leave the session at `sv1`. -/
def assembleResult (serVal : PyValue → Except String String) (b : Behavior)
    (sv1 g : List (String × PyValue)) (succ : Bool) (err : Option ErrorInfo) :
    Except Propagated ExecResult × List (String × PyValue) :=
  match b.post with
  | PostEvent.timeoutSig => (Except.ok (fallbackResult timeoutInfo), sv1)
  | PostEvent.memErr => (Except.ok (fallbackResult memoryInfo), sv1)
  | PostEvent.otherExc e => (Except.ok (fallbackResult e), sv1)
  | PostEvent.clean =>
    let user_vars := _extract_user_variables g
    (Except.ok
      { success := succ, stdout := b.stdoutText, stderr := b.stderrText,
        vars := serialize_variables serVal user_vars, plots := b.plots,
        error := err, execution_time := some b.elapsed,
        memory_usage := some b.memoryUsage },
      dictUpdate sv1 user_vars)

/-- `SandboxRuntime.execute_code` (lines 140-233): merge the caller's input
bindings into the session (line 144, guarded by truthiness), build the
execution globals (lines 148-149), run the code unit, and assemble the
result; a `BaseException` from the code unit is caught by no handler and
escapes. -/
def execute_code (serVal : PyValue → Except String String) (b : Behavior)
    (session_vars input_vars : List (String × PyValue)) :
    Except Propagated ExecResult × List (String × PyValue) :=
  let sv1 := if input_vars.isEmpty then session_vars
    else dictUpdate session_vars input_vars
  match b.event with
  | ExecEvent.raisesBase ty msg => (Except.error (Propagated.base ty msg), sv1)
  | ExecEvent.completes g => assembleResult serVal b sv1 g true none
  | ExecEvent.raisesExc err g => assembleResult serVal b sv1 g false (some err)

/-- `_serialize_value` succeeding with the value's rendering; used to
instantiate the abstracted serializer at concrete inputs. -/
def serValOk : PyValue → Except String String := fun v => Except.ok v.srepr

/-- A run aborted by the termination handler's `KeyboardInterrupt`
(line 100). -/
def interruptRun : Behavior :=
  { event := ExecEvent.raisesBase "KeyboardInterrupt" "Execution terminated",
    stdoutText := "", stderrText := "", post := PostEvent.clean,
    elapsed := 1, memoryUsage := 1000, plots := [] }

/-- A run in which the alarm fires after the code unit completed, during
result assembly, with output already captured. -/
def lateTimeoutRun : Behavior :=
  { event := ExecEvent.completes get_safe_globals,
    stdoutText := "partial", stderrText := "", post := PostEvent.timeoutSig,
    elapsed := 30, memoryUsage := 1000, plots := [] }

/-- C1 counterexample: a cancellation (`KeyboardInterrupt`, raised by the
runtime's own termination handler) escapes `execute_code` instead of
yielding a result, and the result the timeout fallback does yield carries
no resource figures — its dict has no `execution_time`/`memory_usage`
keys. -/
theorem C1_counterexample :
    (execute_code serValOk interruptRun [] []).fst
        = Except.error (Propagated.base "KeyboardInterrupt" "Execution terminated")
    ∧ (execute_code serValOk lateTimeoutRun [] []).fst
        = Except.ok (fallbackResult timeoutInfo)
    ∧ (fallbackResult timeoutInfo).execution_time = none
    ∧ (fallbackResult timeoutInfo).memory_usage = none :=
  ⟨rfl, rfl, rfl, rfl⟩

/-- The result shape the amended C1 asserts: a result is produced (nothing
escapes), its success flag agrees with the absence of an error descriptor,
and the resource figures are present exactly when the result was assembled
inside the execution context rather than by a fallback handler. -/
def wellShaped (e : Except Propagated ExecResult) (post : PostEvent) : Bool :=
  match e with
  | Except.error _ => false
  | Except.ok r =>
    (r.success == r.error.isNone)
      && (r.execution_time.isSome == PostEvent.isClean post)
      && (r.memory_usage.isSome == PostEvent.isClean post)

/-- C1 amended: for every execution whose faults derive from `Exception` —
user-code errors, the in-code timeout and memory errors, and any fault
during result assembly — `execute_code` returns a structured result with
success flag, stdout, stderr, variables, plots and error descriptor, the
flag agreeing with the error field; the resource figures are present
exactly on results assembled inside the execution context.
`BaseException`-derived interrupts are excluded: they propagate. -/
theorem C1_result_shape (serVal : PyValue → Except String String) (b : Behavior)
    (session_vars input_vars : List (String × PyValue))
    (h : ExecEvent.isBase b.event = false) :
    wellShaped (execute_code serVal b session_vars input_vars).fst b.post = true := by
  cases hev : b.event with
  | raisesBase ty msg =>
    rw [hev] at h
    exact absurd h (by simp [ExecEvent.isBase])
  | completes g =>
    cases hpost : b.post
    all_goals simp [execute_code, assembleResult, hev, hpost, wellShaped,
      fallbackResult, PostEvent.isClean]
  | raisesExc err g =>
    cases hpost : b.post
    all_goals simp [execute_code, assembleResult, hev, hpost, wellShaped,
      fallbackResult, PostEvent.isClean]

/-- A plain successful run, for instantiating C1. -/
def okRun : Behavior :=
  { event := ExecEvent.completes get_safe_globals,
    stdoutText := "hi", stderrText := "", post := PostEvent.clean,
    elapsed := 1, memoryUsage := 1000, plots := [] }

theorem C1_witness :
    wellShaped (execute_code serValOk okRun [] []).fst okRun.post = true :=
  C1_result_shape serValOk okRun [] [] rfl

/-- The `x = 1/0` scenario: the code unit raises `ZeroDivisionError`
before binding anything, so the globals at the fault are still the initial
execution globals. -/
def divisionRun (sv : List (String × PyValue)) : Behavior :=
  { event := ExecEvent.raisesExc
      ⟨"ZeroDivisionError", "division by zero", "Traceback ..."⟩
      (dictUpdate get_safe_globals sv),
    stdoutText := "", stderrText := "", post := PostEvent.clean,
    elapsed := 1, memoryUsage := 1000, plots := [] }

/-- C5 counterexample: on a fresh (empty) session, `x = 1/0` with no input
bindings leaves the session changed — the preloaded safe modules of the
execution globals pass every filter of `_extract_user_variables` (a module
is not callable, has no `__module__` attribute, and `json.dumps` with
`default=str` accepts it) and line 177 merges them into the session even
though the execution failed. -/
theorem C5_counterexample :
    (execute_code serValOk (divisionRun []) [] []).snd
        = preloaded_names.map (fun n => (n, moduleValue n))
    ∧ preloaded_names.map (fun n => (n, moduleValue n))
        ≠ ([] : List (String × PyValue)) :=
  ⟨by decide, by decide⟩

/-- C5 amended: a `x = 1/0`-style execution — the code unit raises a fault
before binding anything — returns `success = false` with the raised
exception's descriptor and the captured output; the session is nonetheless
re-merged with the extractable entries of the execution globals, so it is
unchanged exactly when no input bindings were passed and it was already
stable under that merge (as any session that has been through one call
is). -/
theorem C5_failed_run (serVal : PyValue → Except String String) (b : Behavior)
    (sv : List (String × PyValue)) (err : ErrorInfo)
    (hev : b.event = ExecEvent.raisesExc err (dictUpdate get_safe_globals sv))
    (hpost : b.post = PostEvent.clean)
    (hstable : dictUpdate sv
        (_extract_user_variables (dictUpdate get_safe_globals sv)) = sv) :
    execute_code serVal b sv []
      = (Except.ok
          { success := false, stdout := b.stdoutText, stderr := b.stderrText,
            vars := serialize_variables serVal
              (_extract_user_variables (dictUpdate get_safe_globals sv)),
            plots := b.plots, error := some err,
            execution_time := some b.elapsed,
            memory_usage := some b.memoryUsage },
        sv) := by
  simp [execute_code, assembleResult, hev, hpost, hstable]

/-- The session bindings an earlier call leaves behind: stable under the
re-merge of extraction. -/
def stableSession : List (String × PyValue) :=
  _extract_user_variables get_safe_globals

theorem C5_witness :
    execute_code serValOk (divisionRun stableSession) stableSession []
      = (Except.ok
          { success := false, stdout := "", stderr := "",
            vars := serialize_variables serValOk
              (_extract_user_variables (dictUpdate get_safe_globals stableSession)),
            plots := [],
            error := some ⟨"ZeroDivisionError", "division by zero", "Traceback ..."⟩,
            execution_time := some 1, memory_usage := some 1000 },
        stableSession) :=
  C5_failed_run serValOk (divisionRun stableSession) stableSession
    ⟨"ZeroDivisionError", "division by zero", "Traceback ..."⟩
    rfl rfl (by decide)

/-- A run in which the alarm's `TimeoutError` interrupts the code unit
itself and is caught by the inner `except Exception`. -/
def execTimeoutRun : Behavior :=
  { event := ExecEvent.raisesExc
      ⟨"TimeoutError", "Code execution timeout", "tb"⟩ get_safe_globals,
    stdoutText := "up to abort", stderrText := "", post := PostEvent.clean,
    elapsed := 30, memoryUsage := 1000, plots := [] }

/-- C6 counterexample: a run ending in the late timeout (alarm firing
during result assembly) reaches the outer `except TimeoutError` handler,
whose result has empty stdout/stderr — the output captured up to the abort
point (`"partial"`) is discarded, not returned. -/
theorem C6_counterexample :
    lateTimeoutRun.stdoutText = "partial"
    ∧ (execute_code serValOk lateTimeoutRun [] []).fst
        = Except.ok (fallbackResult timeoutInfo)
    ∧ (fallbackResult timeoutInfo).stdout = ""
    ∧ (fallbackResult timeoutInfo).stderr = "" :=
  ⟨rfl, rfl, rfl, rfl⟩

/-- C6 amended: a timeout interrupting the code unit itself is caught like
a user-code fault and yields `success = false`, a `TimeoutError`-typed
descriptor, and the partial stdout/stderr captured up to the abort point;
a timeout landing during result assembly instead reaches the outer
fallback handler, which yields `success = false` with the
`TimeoutError` descriptor but empty stdout/stderr. -/
theorem C6_timeout_paths (serVal : PyValue → Except String String) (b : Behavior)
    (sv vars_in : List (String × PyValue)) :
    (∀ err g, b.event = ExecEvent.raisesExc err g → b.post = PostEvent.clean →
        err.type = "TimeoutError" →
        (execute_code serVal b sv vars_in).fst
          = Except.ok
              { success := false, stdout := b.stdoutText,
                stderr := b.stderrText,
                vars := serialize_variables serVal (_extract_user_variables g),
                plots := b.plots, error := some err,
                execution_time := some b.elapsed,
                memory_usage := some b.memoryUsage })
    ∧ (b.post = PostEvent.timeoutSig → ExecEvent.isBase b.event = false →
        (execute_code serVal b sv vars_in).fst
          = Except.ok (fallbackResult timeoutInfo)) := by
  constructor
  · intro err g hev hpost _
    simp [execute_code, assembleResult, hev, hpost]
  · intro hpost hbase
    cases hev : b.event with
    | raisesBase ty msg =>
      rw [hev] at hbase
      exact absurd hbase (by simp [ExecEvent.isBase])
    | completes g => simp [execute_code, assembleResult, hev, hpost]
    | raisesExc e g => simp [execute_code, assembleResult, hev, hpost]

theorem C6_witness :
    ((execute_code serValOk execTimeoutRun [] []).fst
      = Except.ok
          { success := false, stdout := "up to abort", stderr := "",
            vars := serialize_variables serValOk
              (_extract_user_variables get_safe_globals),
            plots := [],
            error := some ⟨"TimeoutError", "Code execution timeout", "tb"⟩,
            execution_time := some 30, memory_usage := some 1000 })
    ∧ (execute_code serValOk lateTimeoutRun [] []).fst
        = Except.ok (fallbackResult timeoutInfo) :=
  ⟨(C6_timeout_paths serValOk execTimeoutRun [] []).1
      ⟨"TimeoutError", "Code execution timeout", "tb"⟩ get_safe_globals rfl rfl rfl,
    (C6_timeout_paths serValOk lateTimeoutRun [] []).2 rfl rfl⟩

/-! ## The execution context (`runtime.py`, lines 102-138) -/

/-- A target of `sys.stdout`/`sys.stderr`: one of the original process
streams or an in-memory `StringIO` buffer. -/
inductive StreamTarget where
  | real (id : Nat)
  | buffer (id : Nat)
deriving DecidableEq

/-- The process-wide state `execution_context` manipulates: the two global
stream bindings, the pending `SIGALRM` countdown (0 = disarmed), and the
`is_executing` flag. -/
structure RuntimeGlobals where
  stdoutS : StreamTarget
  stderrS : StreamTarget
  alarm : Nat
  isExecuting : Bool
deriving DecidableEq

/-- How the body of the `with` block ended: normal return, a user-code
exception, the alarm's `TimeoutError`, or the termination handler's
`KeyboardInterrupt`. -/
inductive BodyOutcome where
  | normal
  | exc (err : ErrorInfo)
  | timeoutInterrupt
  | keyboardInterrupt
deriving DecidableEq

/-- `SandboxRuntime.execution_context` (lines 102-138): set the executing
flag, arm the alarm (line 112; the 30-second `max_cpu_time` default when
no per-call timeout is given), save both streams and redirect them to
fresh buffers, run the body — which may itself mutate any global — and in
the `finally` block unconditionally restore the saved streams, disarm the
alarm, and clear the flag, whatever the outcome. -/
def execution_context (timeout : Option Nat)
    (body : RuntimeGlobals → RuntimeGlobals × BodyOutcome)
    (s : RuntimeGlobals) : RuntimeGlobals × BodyOutcome :=
  let t := timeout.getD 30
  let redirected : RuntimeGlobals :=
    { stdoutS := StreamTarget.buffer 0, stderrS := StreamTarget.buffer 1,
      alarm := t, isExecuting := true }
  let run := body redirected
  ({ run.fst with
      stdoutS := s.stdoutS
      stderrS := s.stderrS
      alarm := 0
      isExecuting := false }, run.snd)

/-- C7: on every exit path of `execution_context` — whatever the body's
outcome (normal return, exception, timeout interrupt, cancellation) and
whatever the body did to the global stream bindings or the alarm — the
standard output and error streams afterwards equal exactly their pre-call
values, the timeout alarm is disarmed, and the executing flag is
cleared. -/
theorem C7_streams_restored (timeout : Option Nat)
    (body : RuntimeGlobals → RuntimeGlobals × BodyOutcome)
    (s : RuntimeGlobals) :
    (execution_context timeout body s).fst.stdoutS = s.stdoutS
    ∧ (execution_context timeout body s).fst.stderrS = s.stderrS
    ∧ (execution_context timeout body s).fst.alarm = 0
    ∧ (execution_context timeout body s).fst.isExecuting = false :=
  ⟨rfl, rfl, rfl, rfl⟩

end Sandbox
